import Mathlib

/-
  Shallow embedding of `src/app.py` (SkillRack profile analyzer).

  The Python source is a Flask app whose core is:
    - `to_int`            (app.py lines 210-219)  : digit-stripping integer coercion
    - `find_pattern_in_lines` (lines 221-231)     : first line containing a label, value on next line
    - `extract_data`      (lines 233-287)         : keyword scan for dc / dt / code_track + score formula
    - `extract_profile_id` (lines 159-172)        : ordered URL patterns with hash fallback
    - `fetch_page`        (lines 174-195)         : 200 -> text, otherwise None
    - `fetch_profile`     (lines 59-145)          : orchestrator with freshness gate and upsert

  Conventions of the embedding:
    - Python strings are Lean `String`; character classes are ASCII.
    - The wall clock is passed explicitly: `nowUtc` models the absolute value of
      `datetime.now().astimezone()` in seconds, `nowNaive` the naive `datetime.now()`.
    - Python's process-seeded `hash` builtin is a parameter `h : String → Int`
      (fixed within a process, hence deterministic for the model).
    - `clean_html` (BeautifulSoup, lines 197-208) is an external collaborator and is
      passed as a parameter `clean : String → List String`.
    - Exceptions reaching the handler at lines 143-145 are the `internalError` outcome.
    - Calls to collaborators are recorded in a `List Effect` trace.
-/

namespace SkillRack

/-- ASCII model of Python `str.lower()`. -/
def lowerStr (s : String) : String := String.mk (s.data.map Char.toLower)

/-- `startsWithList pat s` is true when `pat` is an initial segment of `s`. -/
def startsWithList : List Char → List Char → Bool
  | [], _ => true
  | _ :: _, [] => false
  | a :: as, b :: bs => a == b && startsWithList as bs

/-- `substrIn pat s` models Python `pat in s` (substring containment). -/
def substrIn (pat : List Char) : List Char → Bool
  | [] => pat == []
  | s@(_ :: t) => startsWithList pat s || substrIn pat t

/-- Python `pat in s` on strings. -/
def pyContains (s pat : String) : Bool := substrIn pat.data s.data

/-- Decimal value of a digit string, as computed by Python `int` on a digit-only string. -/
def decimalVal (ds : List Char) : Nat := ds.foldl (fun a c => 10 * a + (c.toNat - 48)) 0

/-- `to_int` (app.py lines 210-219): strip all non-digit characters
(`re.sub(r'[^\d]', '', str(value))`), then `int(cleaned) if cleaned else 0`.
Total by construction, mirroring the catch-all `except: return 0`. -/
def to_int (s : String) : Nat :=
  let cleaned := s.data.filter Char.isDigit
  if cleaned.isEmpty then 0 else decimalVal cleaned

/-- Maximal leading digit run, the capture of a greedy `(\d+)` anchored at this position. -/
def takeDigits : List Char → List Char
  | [] => []
  | c :: r => if c.isDigit then c :: takeDigits r else []

/-- Match of the regex `lit(\d+)` anchored at the start of `s` (`lit` a literal). -/
def matchLitDigits (lit s : List Char) : Option (List Char) :=
  if startsWithList lit s then
    let ds := takeDigits (s.drop lit.length)
    if ds.isEmpty then none else some ds
  else none

/-- Match of the regex `[?&]id=(\d+)` anchored at the start of the list. -/
def matchIdAt : List Char → Option (List Char)
  | [] => none
  | c :: rest =>
    if (c == '?' || c == '&') && startsWithList ['i', 'd', '='] rest then
      let ds := takeDigits (rest.drop 3)
      if ds.isEmpty then none else some ds
    else none

/-- `re.search` leftmost-match semantics: try the anchored matcher at each
successive suffix, leftmost success wins. -/
def searchAux (f : List Char → Option (List Char)) : List Char → Option (List Char)
  | [] => f []
  | c :: t =>
    match f (c :: t) with
    | some r => some r
    | none => searchAux f t

/-- The literal inside the first pattern of `extract_profile_id`:
`r'skillrack\.com/profile/(\d+)'` (app.py line 162). -/
def profileLit : List Char := "skillrack.com/profile/".data

/-- `extract_profile_id` (app.py lines 159-172): first the new-format pattern
`skillrack\.com/profile/(\d+)`, then the old-format `[?&]id=(\d+)`, else
`str(hash(url))` where `h` models Python's (per-process fixed) `hash`. -/
def extract_profile_id (h : String → Int) (url : String) : String :=
  match searchAux (matchLitDigits profileLit) url.data with
  | some ds => String.mk ds
  | none =>
    match searchAux matchIdAt url.data with
    | some ds => String.mk ds
    | none => toString (h url)

/-- Inner loop of `find_pattern_in_lines` for one pattern (app.py lines 224-230):
first line whose lowercase form contains the pattern; return the next line if it
exists, otherwise that line itself. -/
def findInLines : List String → String → Option String
  | [], _ => none
  | [l], p => if pyContains (lowerStr l) p then some l else none
  | l :: nxt :: rest, p =>
    if pyContains (lowerStr l) p then some nxt else findInLines (nxt :: rest) p

/-- `find_pattern_in_lines` (app.py lines 221-231): outer loop over patterns,
returning `'0'` when no pattern matches any line. -/
def find_pattern_in_lines (lines : List String) : List String → String
  | [] => "0"
  | p :: ps =>
    match findInLines lines p with
    | some v => v
    | none => find_pattern_in_lines lines ps

/-- Name label synonyms (app.py line 240). -/
def namePats : List String := ["name:", "candidate name:", "profile of"]

/-- College label synonyms (app.py line 241). -/
def collegePats : List String := ["college:", "institution:", "university:"]

/-- Daily-challenge line test (app.py line 252). -/
def mDC (l : String) : Bool :=
  pyContains (lowerStr l) "daily challenge" || pyContains (lowerStr l) "dc solved"

/-- Daily-test line test (app.py line 259). -/
def mDT (l : String) : Bool :=
  pyContains (lowerStr l) "daily test" || pyContains (lowerStr l) "dt solved"

/-- Code-track line test (app.py line 265). -/
def mCT (l : String) : Bool :=
  pyContains (lowerStr l) "problems solved" || pyContains (lowerStr l) "total solved" ||
    pyContains (lowerStr l) "code track"

/-- Value taken from a matching line (app.py lines 253-256): the number in the
line itself, or, when that is 0 and a next line exists, the number in the next line. -/
def lineValue (l : String) (rest : List String) : Nat :=
  let v := to_int l
  if v == 0 then
    match rest with
    | nxt :: _ => to_int nxt
    | [] => v
  else v

/-- The numeric scan loop of `extract_data` (app.py lines 248-268): one pass over
the lines; each matching line re-assigns its field (the `elif` chain gives
daily-challenge priority over daily-test over code-track on a single line). -/
def scanGo : List String → Nat → Nat → Nat → Nat × Nat × Nat
  | [], dc, dt, ct => (dc, dt, ct)
  | l :: rest, dc, dt, ct =>
    if mDC l then scanGo rest (lineValue l rest) dt ct
    else if mDT l then scanGo rest dc (lineValue l rest) ct
    else if mCT l then scanGo rest dc dt (lineValue l rest)
    else scanGo rest dc dt ct

/-- The scan started from the initial values `dc = dt = code_track = 0`
(app.py lines 244-246). -/
def scanCounts (lines : List String) : Nat × Nat × Nat := scanGo lines 0 0 0

/-- The record built by `extract_data` (app.py lines 273-282). -/
structure ProfileData where
  id : String
  name : String
  college : String
  dc : Nat
  dt : Nat
  points : Nat
  last_fetched : Int
  profile_url : String
deriving DecidableEq, Repr

/-- `extract_data` (app.py lines 233-287). `nowNaive` models the value of
`datetime.now().isoformat()` taken at extraction time. -/
def extract_data (h : String → Int) (url : String) (lines : List String)
    (nowNaive : Int) : ProfileData :=
  let profile_id := extract_profile_id h url
  let name := find_pattern_in_lines lines namePats
  let college := find_pattern_in_lines lines collegePats
  let counts := scanCounts lines
  let dc := counts.1
  let dt := counts.2.1
  let code_track := counts.2.2
  let points := (code_track + dc) * 2 + dt * 20
  { id := profile_id
    name := if name ≠ "0" then name else "Unknown"
    college := if college ≠ "0" then college else "Unknown"
    dc := dc
    dt := dt
    points := points
    last_fetched := nowNaive
    profile_url := url }

/-- The stored `last_fetched` string, abstracted by how `datetime.fromisoformat`
sees it (app.py lines 91-96): `valid wall tz` is a string without trailing `Z`
parsing to a datetime with wall-clock seconds `wall` and optional UTC offset `tz`
(`none` = naive); `validZ wall` is a string ending in `Z` whose body parses
(the code rewrites `Z` to `+00:00`, giving offset 0); `invalid` raises `ValueError`. -/
inductive StoredTs where
  | valid (wall : Int) (tz : Option Int)
  | validZ (wall : Int)
  | invalid
deriving DecidableEq, Repr

/-- The parse at app.py lines 93-96: branch on a trailing `Z`, then
`datetime.fromisoformat`; `none` models a raised `ValueError`. -/
def parse_last_fetched : StoredTs → Option (Int × Option Int)
  | .validZ w => some (w, some 0)
  | .valid w tz => some (w, tz)
  | .invalid => none

/-- `(datetime.now().astimezone() - last_fetched).total_seconds()` (app.py line 98):
aware minus aware is the difference of absolute instants; aware minus naive
raises `TypeError`, modelled as `none`. -/
def ageSeconds (nowUtc : Int) : Int × Option Int → Option Int
  | (w, some off) => some (nowUtc - (w - off))
  | (_, none) => none

/-- A row of the `skillrack_profiles` table as returned by the store lookup. -/
structure StoredProfile where
  id : String
  name : String
  college : String
  points : Nat
  dc : Nat
  dt : Nat
  last_fetched : StoredTs
  profile_url : String
deriving DecidableEq, Repr

/-- The outcome of the outbound `requests.get` in `fetch_page`: a response with a
status code and body, or a raised `RequestException`. -/
inductive HttpOutcome where
  | response (status : Nat) (text : String)
  | exn
deriving DecidableEq, Repr

/-- `fetch_page` (app.py lines 174-195): return `response.text` on status 200,
`None` on any other status or on a transport exception. -/
def fetch_page : HttpOutcome → Option String
  | .response status text => if status == 200 then some text else none
  | .exn => none

/-- Collaborator calls made by one request, in order. -/
inductive Effect where
  | storeRead
  | fetchCall
  | extractCall
  | storeWrite
deriving DecidableEq, Repr

/-- The user-facing outcome of `fetch_profile`:
`cached p` is the verbatim stored record (line 100); `freshResult p` the newly
extracted record (line 141); `fetchError` the message at line 107;
`incompleteError` the "Incomplete profile data received..." message at line 118;
`internalError` the 500 response from the handler at lines 143-145. -/
inductive FPResult where
  | cached (p : StoredProfile)
  | freshResult (p : ProfileData)
  | fetchError
  | incompleteError
  | internalError
deriving DecidableEq, Repr

/-- The post-gate pipeline of `fetch_profile` (app.py lines 103-141): fetch, the
`if not html_content` check (false for both `None` and the empty string), clean,
the 20-line minimum, extraction, and the upsert whose result (`storeWriteOk`,
bound to `result` at line 135) is never read. -/
def fetchAndBuild (h : String → Int) (url : String) (nowNaive : Int)
    (fo : HttpOutcome) (clean : String → List String) (storeWriteOk : Bool) :
    FPResult × List Effect :=
  match fetch_page fo with
  | none => (.fetchError, [.fetchCall])
  | some html =>
    if html = "" then (.fetchError, [.fetchCall])
    else
      let lines := clean html
      if lines.length < 20 then (.incompleteError, [.fetchCall])
      else
        let pd := extract_data h url lines nowNaive
        (.freshResult pd, [.fetchCall, .extractCall, .storeWrite])

/-- `fetch_profile` after URL validation (app.py lines 81-145). `existing` is the
store lookup result (`none` models a failed GET, which the code treats like no
rows); the freshness gate at lines 89-100 either returns the first row verbatim,
falls through to the pipeline, or raises (unparsable or naive timestamp), which
the handler at lines 143-145 turns into `internalError`. -/
def fetch_profile (h : String → Int) (url : String)
    (existing : Option (List StoredProfile)) (nowUtc nowNaive : Int)
    (fo : HttpOutcome) (clean : String → List String) (storeWriteOk : Bool) :
    FPResult × List Effect :=
  match existing with
  | some (p :: _) =>
    match parse_last_fetched p.last_fetched with
    | none => (.internalError, [.storeRead])
    | some parsed =>
      match ageSeconds nowUtc parsed with
      | none => (.internalError, [.storeRead])
      | some d =>
        if d < 3600 then (.cached p, [.storeRead])
        else
          let fb := fetchAndBuild h url nowNaive fo clean storeWriteOk
          (fb.1, .storeRead :: fb.2)
  | _ =>
    let fb := fetchAndBuild h url nowNaive fo clean storeWriteOk
    (fb.1, .storeRead :: fb.2)

/-- Single-field view of the scan loop: a left pass that re-assigns the
accumulator at every line satisfying `m`. -/
def fieldScanAux (m : String → Bool) (acc : Nat) : List String → Nat
  | [] => acc
  | l :: rest => fieldScanAux m (if m l then lineValue l rest else acc) rest

/-- Daily-test matcher with the `elif` priority of the loop applied. -/
def mDTp (l : String) : Bool := !mDC l && mDT l

/-- Code-track matcher with the `elif` priority of the loop applied. -/
def mCTp (l : String) : Bool := !mDC l && !mDT l && mCT l

/-- A stored row whose `last_fetched` parses but carries no UTC offset -- exactly
the shape the app itself writes via `datetime.now().isoformat()` (app.py line 280). -/
def pNaive : StoredProfile :=
  { id := "1", name := "n", college := "c", points := 0, dc := 0, dt := 0,
    last_fetched := StoredTs.valid 0 none, profile_url := "u" }

/-- A stored row whose `last_fetched` string does not parse at all. -/
def pBad : StoredProfile :=
  { pNaive with last_fetched := StoredTs.invalid }

/-- A single-field scan over lines none of which match leaves the accumulator. -/
theorem fieldScanAux_no_match (m : String → Bool) (acc : Nat) (lines : List String)
    (h : ∀ y ∈ lines, m y = false) : fieldScanAux m acc lines = acc := by
  induction lines generalizing acc with
  | nil => rfl
  | cons l rest ih =>
    have hl : m l = false := h l (by simp)
    simp only [fieldScanAux, hl, Bool.false_eq_true, if_false]
    exact ih acc (fun y hy => h y (by simp [hy]))

/-- The single-field scan is decided by the last matching line: whatever the
accumulator was, a match at `l` with no later match yields `lineValue l ys`. -/
theorem fieldScanAux_last (m : String → Bool) (acc : Nat) (xs ys : List String)
    (l : String) (hl : m l = true) (hys : ∀ y ∈ ys, m y = false) :
    fieldScanAux m acc (xs ++ l :: ys) = lineValue l ys := by
  induction xs generalizing acc with
  | nil =>
    simp only [List.nil_append, fieldScanAux, hl, if_pos rfl]
    exact fieldScanAux_no_match m _ ys hys
  | cons x xs ih =>
    simp only [List.cons_append, fieldScanAux]
    exact ih _

/-- The three-field loop of `extract_data` decomposes into three independent
single-field scans, with the `elif` priority folded into the matchers. -/
theorem scanGo_decomp (lines : List String) : ∀ dc dt ct : Nat,
    scanGo lines dc dt ct =
      (fieldScanAux mDC dc lines, fieldScanAux mDTp dt lines, fieldScanAux mCTp ct lines) := by
  induction lines with
  | nil => intro dc dt ct; rfl
  | cons l rest ih =>
    intro dc dt ct
    cases hdc : mDC l with
    | true => simp [scanGo, fieldScanAux, mDTp, mCTp, hdc, ih]
    | false =>
      cases hdt : mDT l with
      | true => simp [scanGo, fieldScanAux, mDTp, mCTp, hdc, hdt, ih]
      | false =>
        cases hct : mCT l with
        | true => simp [scanGo, fieldScanAux, mDTp, mCTp, hdc, hdt, hct, ih]
        | false => simp [scanGo, fieldScanAux, mDTp, mCTp, hdc, hdt, hct, ih]

/-- When no line contains the pattern, the inner loop of
`find_pattern_in_lines` finds nothing. -/
theorem findInLines_none (lines : List String) (p : String)
    (h : ∀ l ∈ lines, pyContains (lowerStr l) p = false) :
    findInLines lines p = none := by
  induction lines with
  | nil => rfl
  | cons l rest ih =>
    cases rest with
    | nil => simp [findInLines, h l (by simp)]
    | cons nxt rest2 =>
      simp only [findInLines, h l (by simp), Bool.false_eq_true, if_false]
      exact ih (fun y hy => h y (by simp [hy]))

/-- When no pattern occurs in any line, `find_pattern_in_lines` returns
the sentinel `'0'`. -/
theorem find_pattern_default (lines : List String) (pats : List String)
    (h : ∀ p ∈ pats, ∀ l ∈ lines, pyContains (lowerStr l) p = false) :
    find_pattern_in_lines lines pats = "0" := by
  induction pats with
  | nil => rfl
  | cons p ps ih =>
    simp only [find_pattern_in_lines, findInLines_none lines p (h p (by simp))]
    exact ih (fun q hq => h q (by simp [hq]))

/-- If the anchored matcher fails at every suffix, the leftmost search fails. -/
theorem searchAux_none (f : List Char → Option (List Char)) (s : List Char)
    (h : ∀ i ≤ s.length, f (s.drop i) = none) : searchAux f s = none := by
  induction s with
  | nil => exact h 0 (by simp)
  | cons c t ih =>
    have h0 : f (c :: t) = none := h 0 (by simp)
    simp only [searchAux, h0]
    exact ih (fun i hi => by
      have := h (i + 1) (by simpa using hi)
      simpa using this)

/-- Claim C3: for all extracted sub-counts, the points computed when a record is
built equal `(code_track + dc) * 2 + dt * 20` exactly, with `dc`, `dt` and
`code_track` the freshly scanned counts of the input lines (not copied from any
prior record -- `extract_data` takes no prior record); e.g. dc=5, dt=2,
track=10 gives 70. -/
theorem claim_C3_score (h : String → Int) (url : String) (lines : List String)
    (now : Int) :
    (extract_data h url lines now).points
      = ((scanCounts lines).2.2 + (scanCounts lines).1) * 2 + (scanCounts lines).2.1 * 20
  ∧ (extract_data h url lines now).dc = (scanCounts lines).1
  ∧ (extract_data h url lines now).dt = (scanCounts lines).2.1
  ∧ (extract_data h url ["daily challenge", "5", "daily test", "2", "code track", "10"]
        now).points = 70 :=
  ⟨rfl, rfl, rfl, rfl⟩

/-- Claim C4, counterexample: with two lines both matching the daily-challenge
synonyms, the first match (value 5) IS overwritten: the code keeps the last
match's value 7, refuting "once a field is set by a match it is not overwritten
by any later matching line". -/
theorem claim_C4_counterexample :
    (extract_data (fun _ => (0 : Int)) "u" ["daily challenge 5", "daily challenge 7"] 0).dc = 7
  ∧ (7 : Nat) ≠ 5 :=
  ⟨rfl, by decide⟩

/-- Claim C4, amended: in the keyword scan each numeric field is determined by
the LAST line matching that field's synonyms (every matching line overwrites the
field with the number embedded in the line, or, if that is 0, the number on the
immediately following line); a field with no matching line stays 0. The scan
decomposes into three independent single-field passes (with the `elif` priority
folded into the daily-test and code-track matchers). -/
theorem claim_C4_last_match_wins (lines xs ys : List String) (l : String)
    (m : String → Bool) (acc : Nat) :
    scanCounts lines
      = (fieldScanAux mDC 0 lines, fieldScanAux mDTp 0 lines, fieldScanAux mCTp 0 lines)
  ∧ (m l = true → (∀ y ∈ ys, m y = false) →
      fieldScanAux m acc (xs ++ l :: ys) = lineValue l ys)
  ∧ ((∀ y ∈ lines, m y = false) → fieldScanAux m acc lines = acc) :=
  ⟨scanGo_decomp lines 0 0 0,
   fun hl hys => fieldScanAux_last m acc xs ys l hl hys,
   fun hno => fieldScanAux_no_match m acc lines hno⟩

/-- Witness for C4: the last of two daily-challenge lines decides the field, and
a non-matching line leaves the accumulator unchanged. -/
theorem claim_C4_last_match_wins_witness :
    fieldScanAux mDC 0 (["daily challenge 5"] ++ "daily challenge 7" :: ([] : List String))
      = lineValue "daily challenge 7" []
  ∧ fieldScanAux mDC 3 ["irrelevant line"] = 3 :=
  ⟨(claim_C4_last_match_wins [] ["daily challenge 5"] [] "daily challenge 7" mDC 0).2.1
      (by decide) (by simp),
   (claim_C4_last_match_wins ["irrelevant line"] [] [] "x" mDC 3).2.2 (by decide)⟩

/-- Claim C5, counterexample: a 1-line sequence (shorter than the 20-line
minimum) that happens to contain a keyword does NOT yield a fully-defaulted
record: `extract_data` extracts dc = 7 and points = 14 from it. -/
theorem claim_C5_counterexample :
    (["daily challenge 7"] : List String).length < 20
  ∧ (extract_data (fun _ => (0 : Int)) "u" ["daily challenge 7"] 0).dc = 7
  ∧ (extract_data (fun _ => (0 : Int)) "u" ["daily challenge 7"] 0).points = 14
  ∧ (7 : Nat) ≠ 0 :=
  ⟨by decide, rfl, rfl, by decide⟩

/-- Claim C5, amended: for every line sequence shorter than the 20-line minimum
in which no line matches any field's label synonyms (in particular the empty
sequence), `extract_data` returns the fully-defaulted record: sentinel
name/college `"Unknown"`, all sub-counts 0, points 0.  (It is total -- never
raises or indexes out of bounds -- for every input, by construction: every
lookahead is guarded.) -/
theorem claim_C5_short_default (h : String → Int) (url : String) (now : Int)
    (lines : List String) (hlen : lines.length < 20)
    (hno : ∀ l ∈ lines, mDC l = false ∧ mDT l = false ∧ mCT l = false ∧
      (∀ p ∈ namePats, pyContains (lowerStr l) p = false) ∧
      (∀ p ∈ collegePats, pyContains (lowerStr l) p = false)) :
    (extract_data h url lines now).name = "Unknown"
  ∧ (extract_data h url lines now).college = "Unknown"
  ∧ (extract_data h url lines now).dc = 0
  ∧ (extract_data h url lines now).dt = 0
  ∧ (extract_data h url lines now).points = 0 := by
  have hname : find_pattern_in_lines lines namePats = "0" :=
    find_pattern_default lines namePats
      (fun p hp l hl => (hno l hl).2.2.2.1 p hp)
  have hcoll : find_pattern_in_lines lines collegePats = "0" :=
    find_pattern_default lines collegePats
      (fun p hp l hl => (hno l hl).2.2.2.2 p hp)
  have hscan : scanCounts lines = (0, 0, 0) := by
    rw [scanCounts, scanGo_decomp,
      fieldScanAux_no_match mDC 0 lines (fun y hy => (hno y hy).1),
      fieldScanAux_no_match mDTp 0 lines (fun y hy => by simp [mDTp, (hno y hy).2.1]),
      fieldScanAux_no_match mCTp 0 lines (fun y hy => by simp [mCTp, (hno y hy).2.2.1])]
  refine ⟨?_, ?_, ?_, ?_, ?_⟩ <;> simp [extract_data, hname, hcoll, hscan]

/-- Witness for C5: a two-line sequence with no matching keywords yields the
defaulted name and zero points. -/
theorem claim_C5_short_default_witness :
    (extract_data (fun _ => (0 : Int)) "u" ["hello", "world"] 0).name = "Unknown"
  ∧ (extract_data (fun _ => (0 : Int)) "u" ["hello", "world"] 0).points = 0 :=
  ⟨(claim_C5_short_default (fun _ => (0 : Int)) "u" 0 ["hello", "world"]
      (by decide) (by decide)).1,
   (claim_C5_short_default (fun _ => (0 : Int)) "u" 0 ["hello", "world"]
      (by decide) (by decide)).2.2.2.2⟩

/-- Claim C6: `to_int` never raises (it is total by construction); it returns 0
for any string containing no digits, and for any string consisting of exactly
one run of digits surrounded by non-digits it returns that run's decimal
magnitude; e.g. `"12pts"` yields 12. -/
theorem claim_C6_to_int (s : String) (a d b : List Char) :
    ((∀ c ∈ s.data, c.isDigit = false) → to_int s = 0)
  ∧ (s.data = a ++ d ++ b → d ≠ [] → (∀ c ∈ d, c.isDigit = true) →
      (∀ c ∈ a, c.isDigit = false) → (∀ c ∈ b, c.isDigit = false) →
      to_int s = decimalVal d)
  ∧ to_int "12pts" = 12 := by
  refine ⟨?_, ?_, by decide⟩
  · intro h
    have hnil : s.data.filter Char.isDigit = [] :=
      List.filter_eq_nil_iff.mpr (fun c hc => by simp [h c hc])
    simp [to_int, hnil]
  · intro hs hd hdig ha hb
    have hfa : a.filter Char.isDigit = [] :=
      List.filter_eq_nil_iff.mpr (fun c hc => by simp [ha c hc])
    have hfb : b.filter Char.isDigit = [] :=
      List.filter_eq_nil_iff.mpr (fun c hc => by simp [hb c hc])
    have hfd : d.filter Char.isDigit = d := List.filter_eq_self.mpr hdig
    have hclean : s.data.filter Char.isDigit = d := by
      rw [hs, List.filter_append, List.filter_append, hfa, hfb, hfd]
      simp
    have hne : d.isEmpty = false := List.isEmpty_eq_false.mpr hd
    simp [to_int, hclean, hne]

/-- Witness for C6: instantiated at `"12pts"` with the digit run `['1','2']`. -/
theorem claim_C6_to_int_witness : to_int "12pts" = decimalVal ['1', '2'] :=
  (claim_C6_to_int "12pts" [] ['1', '2'] ['p', 't', 's']).2.1
    (by decide) (by decide) (by decide) (by decide) (by decide)

/-- Claim C1, counterexample: a stored record whose `last_fetched` parses (to a
naive datetime, `StoredTs.valid 0 none`) and is 10 minutes old does NOT come back
verbatim: the aware-minus-naive subtraction raises, and the request ends in the
500 handler (`internalError`) with no fetch -- neither the FRESH nor the
STALE_OR_MISSING behaviour the claim states for every parsing timestamp. -/
theorem claim_C1_counterexample :
    parse_last_fetched pNaive.last_fetched = some (0, none)
  ∧ fetch_profile (fun _ => (0 : Int)) "u" (some [pNaive]) 600 0 HttpOutcome.exn
      (fun _ => []) true
      = (FPResult.internalError, [Effect.storeRead])
  ∧ FPResult.internalError ≠ FPResult.cached pNaive :=
  ⟨rfl, rfl, by decide⟩

/-- Claim C1, amended: for every lookup with a stored record whose `fetchedAt`
parses to an offset-aware instant, if `now - fetchedAt < 3600` seconds the stored
record is returned verbatim (only the store read happens: no fetch, no store
write); if the difference is 3600 seconds or more, or no stored record exists,
the pipeline proceeds to the fetch stage, and -- when the fetch succeeds with at
least 20 cleaned lines -- re-extracts and upserts the fresh record. -/
theorem claim_C1_freshness_gate (h : String → Int) (url : String)
    (p : StoredProfile) (rest : List StoredProfile) (nowUtc nowNaive w off : Int)
    (fo : HttpOutcome) (clean : String → List String) (ok : Bool) :
    (parse_last_fetched p.last_fetched = some (w, some off) →
      (nowUtc - (w - off) < 3600 →
        fetch_profile h url (some (p :: rest)) nowUtc nowNaive fo clean ok
          = (FPResult.cached p, [Effect.storeRead]))
      ∧ (3600 ≤ nowUtc - (w - off) →
        fetch_profile h url (some (p :: rest)) nowUtc nowNaive fo clean ok
          = ((fetchAndBuild h url nowNaive fo clean ok).1,
              Effect.storeRead :: (fetchAndBuild h url nowNaive fo clean ok).2)))
  ∧ fetch_profile h url none nowUtc nowNaive fo clean ok
      = ((fetchAndBuild h url nowNaive fo clean ok).1,
          Effect.storeRead :: (fetchAndBuild h url nowNaive fo clean ok).2)
  ∧ (∀ html, fo = HttpOutcome.response 200 html → html ≠ "" →
      20 ≤ (clean html).length →
      fetchAndBuild h url nowNaive fo clean ok
        = (FPResult.freshResult (extract_data h url (clean html) nowNaive),
            [Effect.fetchCall, Effect.extractCall, Effect.storeWrite])) := by
  refine ⟨?_, rfl, ?_⟩
  · intro hparse
    constructor
    · intro hlt
      simp [fetch_profile, hparse, ageSeconds, hlt]
    · intro hge
      have hnlt : ¬ (nowUtc - (w - off) < 3600) := not_lt.mpr hge
      simp [fetch_profile, hparse, ageSeconds, hnlt]
  · intro html hfo hne hlen
    subst hfo
    have h20 : ¬ ((clean html).length < 20) := by omega
    simp [fetchAndBuild, fetch_page, hne, h20]

/-- Witness for C1: a 30-minute-old UTC-marked record is served from the cache
with no fetch; a 2-hour-old one goes through fetch, extract and store write. -/
theorem claim_C1_freshness_gate_witness :
    fetch_profile (fun _ => (0 : Int)) "u"
        (some [{ pNaive with last_fetched := StoredTs.validZ 0 }]) 1800 0
        HttpOutcome.exn (fun _ => []) true
      = (FPResult.cached { pNaive with last_fetched := StoredTs.validZ 0 },
          [Effect.storeRead])
  ∧ fetch_profile (fun _ => (0 : Int)) "u"
        (some [{ pNaive with last_fetched := StoredTs.validZ 0 }]) 7200 0
        (HttpOutcome.response 200 "x") (fun _ => List.replicate 20 "a") true
      = ((fetchAndBuild (fun _ => (0 : Int)) "u" 0 (HttpOutcome.response 200 "x")
            (fun _ => List.replicate 20 "a") true).1,
          Effect.storeRead :: (fetchAndBuild (fun _ => (0 : Int)) "u" 0
            (HttpOutcome.response 200 "x") (fun _ => List.replicate 20 "a") true).2) :=
  ⟨((claim_C1_freshness_gate (fun _ => (0 : Int)) "u"
      { pNaive with last_fetched := StoredTs.validZ 0 } [] 1800 0 0 0
      HttpOutcome.exn (fun _ => []) true).1 rfl).1 (by decide),
   ((claim_C1_freshness_gate (fun _ => (0 : Int)) "u"
      { pNaive with last_fetched := StoredTs.validZ 0 } [] 7200 0 0 0
      (HttpOutcome.response 200 "x") (fun _ => List.replicate 20 "a") true).1 rfl).2
      (by decide)⟩

/-- Claim C2 (code bug): a stored record whose timestamp cannot be parsed
(`StoredTs.invalid`) or cannot be normalized to an absolute instant
(`StoredTs.valid _ none`, a timestamp without a UTC marker, exactly what the app
itself stores) is NOT treated as STALE_OR_MISSING: the exception is caught by the
handler at app.py lines 143-145, the request terminates with the fatal 500
outcome, and no re-fetch happens. -/
theorem claim_C2_timestamp_fatal :
    (fetch_profile (fun _ => (0 : Int)) "u" (some [pNaive]) 600 0 HttpOutcome.exn
        (fun _ => []) true).1 = FPResult.internalError
  ∧ (fetch_profile (fun _ => (0 : Int)) "u" (some [pBad]) 600 0 HttpOutcome.exn
        (fun _ => []) true).1 = FPResult.internalError
  ∧ Effect.fetchCall ∉ (fetch_profile (fun _ => (0 : Int)) "u" (some [pBad]) 600 0
        HttpOutcome.exn (fun _ => []) true).2 :=
  ⟨rfl, rfl, by decide⟩

/-- Claim C7: identifier extraction tries the URL-shape patterns in order, first
match wins: `profile/<digits>` yields those digits, otherwise `[?&]id=<digits>`
yields those digits, and when neither pattern matches anywhere in the URL the id
is the deterministic hash fallback `str(hash(url))` (stable across calls, `h`
being Python's per-process-fixed string hash). -/
theorem claim_C7_profile_id (h : String → Int) (url : String) :
    extract_profile_id h "https://www.skillrack.com/profile/500444/abc123" = "500444"
  ∧ extract_profile_id h "https://www.skillrack.com/faces/candidate/profile.xhtml?id=777"
      = "777"
  ∧ ((∀ i ≤ url.data.length, matchLitDigits profileLit (url.data.drop i) = none) →
      (∀ i ≤ url.data.length, matchIdAt (url.data.drop i) = none) →
      extract_profile_id h url = toString (h url))
  ∧ (∀ ds, searchAux (matchLitDigits profileLit) url.data = some ds →
      extract_profile_id h url = String.mk ds) := by
  refine ⟨rfl, rfl, ?_, ?_⟩
  · intro h1 h2
    have e1 : searchAux (matchLitDigits profileLit) url.data = none :=
      searchAux_none _ _ h1
    have e2 : searchAux matchIdAt url.data = none :=
      searchAux_none _ _ h2
    simp [extract_profile_id, e1, e2]
  · intro ds hds
    simp [extract_profile_id, hds]

/-- Witness for C7: a URL matching neither pattern falls back to the hash id. -/
theorem claim_C7_profile_id_witness :
    extract_profile_id (fun _ => (37 : Int)) "nourl"
      = toString ((fun _ => (37 : Int)) "nourl") :=
  (claim_C7_profile_id (fun _ => (37 : Int)) "nourl").2.2.1 (by decide) (by decide)

/-- Claim C8: whenever the fetch collaborator fails -- transport exception,
non-200 status, or a 200 with empty content -- the request ends in the
descriptive fetch-failure outcome (app.py line 107); the effect trace shows the
extractor and the store write are not invoked, and no (degraded) record is
returned. -/
theorem claim_C8_fetch_failure (h : String → Int) (url : String)
    (nowUtc nowNaive : Int) (fo : HttpOutcome) (clean : String → List String)
    (ok : Bool) (s : Nat) (t : String) :
    (fetch_page fo = none ∨ fetch_page fo = some "" →
      fetchAndBuild h url nowNaive fo clean ok = (FPResult.fetchError, [Effect.fetchCall])
      ∧ fetch_profile h url none nowUtc nowNaive fo clean ok
          = (FPResult.fetchError, [Effect.storeRead, Effect.fetchCall]))
  ∧ (s ≠ 200 → fetch_page (HttpOutcome.response s t) = none)
  ∧ fetch_page HttpOutcome.exn = none := by
  refine ⟨?_, ?_, rfl⟩
  · intro hf
    have hfb : fetchAndBuild h url nowNaive fo clean ok
        = (FPResult.fetchError, [Effect.fetchCall]) := by
      rcases hf with hf | hf
      · simp [fetchAndBuild, hf]
      · simp [fetchAndBuild, hf]
    exact ⟨hfb, by simp [fetch_profile, hfb]⟩
  · intro hs
    simp [fetch_page, hs]

/-- Witness for C8: a transport exception yields the fetch-failure outcome with
only the store read and the fetch call in the trace, and a 404 yields no content. -/
theorem claim_C8_fetch_failure_witness :
    (fetchAndBuild (fun _ => (0 : Int)) "u" 0 HttpOutcome.exn (fun _ => []) true
        = (FPResult.fetchError, [Effect.fetchCall])
      ∧ fetch_profile (fun _ => (0 : Int)) "u" none 0 0 HttpOutcome.exn
          (fun _ => []) true
        = (FPResult.fetchError, [Effect.storeRead, Effect.fetchCall]))
  ∧ fetch_page (HttpOutcome.response 404 "nf") = none :=
  ⟨(claim_C8_fetch_failure (fun _ => (0 : Int)) "u" 0 0 HttpOutcome.exn
      (fun _ => []) true 404 "nf").1 (Or.inl rfl),
   (claim_C8_fetch_failure (fun _ => (0 : Int)) "u" 0 0 HttpOutcome.exn
      (fun _ => []) true 404 "nf").2.1 (by decide)⟩

/-- Claim C9: once extraction is reached (successful non-empty fetch, at least 20
cleaned lines), the request returns the freshly extracted record for EVERY store
upsert outcome `ok` -- the upsert result is bound and discarded (app.py line
135), so a store failure cannot prevent the success response. -/
theorem claim_C9_store_failure_nonfatal (h : String → Int) (url : String)
    (nowUtc nowNaive : Int) (clean : String → List String) (html : String)
    (hne : html ≠ "") (hlen : 20 ≤ (clean html).length) (ok : Bool) :
    fetchAndBuild h url nowNaive (HttpOutcome.response 200 html) clean ok
      = (FPResult.freshResult (extract_data h url (clean html) nowNaive),
          [Effect.fetchCall, Effect.extractCall, Effect.storeWrite])
  ∧ fetch_profile h url none nowUtc nowNaive (HttpOutcome.response 200 html) clean ok
      = (FPResult.freshResult (extract_data h url (clean html) nowNaive),
          [Effect.storeRead, Effect.fetchCall, Effect.extractCall, Effect.storeWrite]) := by
  have h20 : ¬ ((clean html).length < 20) := by omega
  have hfb : fetchAndBuild h url nowNaive (HttpOutcome.response 200 html) clean ok
      = (FPResult.freshResult (extract_data h url (clean html) nowNaive),
          [Effect.fetchCall, Effect.extractCall, Effect.storeWrite]) := by
    simp [fetchAndBuild, fetch_page, hne, h20]
  exact ⟨hfb, by simp [fetch_profile, hfb]⟩

/-- Witness for C9: with a failed store write (`ok = false`) the request still
returns the freshly extracted record. -/
theorem claim_C9_store_failure_nonfatal_witness :
    fetch_profile (fun _ => (0 : Int)) "u" none 0 0 (HttpOutcome.response 200 "x")
        (fun _ => List.replicate 20 "a") false
      = (FPResult.freshResult (extract_data (fun _ => (0 : Int)) "u"
            ((fun _ : String => List.replicate 20 "a") "x") 0),
          [Effect.storeRead, Effect.fetchCall, Effect.extractCall, Effect.storeWrite]) :=
  (claim_C9_store_failure_nonfatal (fun _ => (0 : Int)) "u" 0 0
    (fun _ => List.replicate 20 "a") "x" (by decide) (by decide) false).2

/-- Claim C10: a successful fetch whose page cleans to fewer than 20 lines ends
in the "Incomplete profile data received..." outcome (app.py line 118); the
effect trace shows neither the extractor nor the store write runs, so a
near-empty page never produces a stored or returned defaulted record. -/
theorem claim_C10_incomplete_short_circuit (h : String → Int) (url : String)
    (nowUtc nowNaive : Int) (clean : String → List String) (html : String)
    (ok : Bool) (hne : html ≠ "") (hshort : (clean html).length < 20) :
    fetchAndBuild h url nowNaive (HttpOutcome.response 200 html) clean ok
      = (FPResult.incompleteError, [Effect.fetchCall])
  ∧ fetch_profile h url none nowUtc nowNaive (HttpOutcome.response 200 html) clean ok
      = (FPResult.incompleteError, [Effect.storeRead, Effect.fetchCall]) := by
  have hfb : fetchAndBuild h url nowNaive (HttpOutcome.response 200 html) clean ok
      = (FPResult.incompleteError, [Effect.fetchCall]) := by
    simp [fetchAndBuild, fetch_page, hne, hshort]
  exact ⟨hfb, by simp [fetch_profile, hfb]⟩

/-- Witness for C10: a 200 response cleaning to the empty line sequence yields
the incomplete-data outcome with no extract and no store write. -/
theorem claim_C10_incomplete_short_circuit_witness :
    fetch_profile (fun _ => (0 : Int)) "u" none 0 0 (HttpOutcome.response 200 "x")
        (fun _ => ([] : List String)) true
      = (FPResult.incompleteError, [Effect.storeRead, Effect.fetchCall]) :=
  (claim_C10_incomplete_short_circuit (fun _ => (0 : Int)) "u" 0 0
    (fun _ => ([] : List String)) "x" true (by decide) (by decide)).2

end SkillRack
